import Mathlib

/-!
Shallow embedding of the client-side workflow controller of the
ai-minecraft-platform frontend (the `App` component in src/unnamed/part_000).
The component owns five pieces of React state (`prompt`, `state`, `mob`,
`error`, `downloading`) and three commands: `handleGenerate` (lines 27-52),
`handleDownload` (lines 54-78) and `handleStartOver` (lines 80-85).
The two async handlers are split into a synchronous start phase (everything up
to and including issuing the `fetch`) and a resolve phase (the continuation run
when the promise settles), so that interleavings with other commands and the
state at the moment the network call is issued can be expressed.
-/

namespace MobApp

/-- JavaScript values produced by `JSON.parse` (the result of `res.json()`).
Numbers are modelled as integers; no claim involves fractional values. -/
inductive Json : Type where
| null : Json
| bool : Bool → Json
| num : Int → Json
| str : String → Json
| arr : List Json → Json
| obj : List (String × Json) → Json

/-- Property lookup on the fields of a parsed JSON object. `JSON.parse` keeps
the last of several bindings of the same key, so the last match wins. -/
def lookupField : List (String × Json) → String → Option Json
| [], _ => none
| (k, v) :: rest, key =>
    match lookupField rest key with
    | some w => some w
    | none => if k = key then some v else none

/-- JavaScript property access `j.key` on a parsed JSON value: a present field
of an object, and `undefined` (here `none`) on every non-object value, since
`JSON.parse` output carries no own property named `detail` or `name` except on
objects. -/
def jsGetField : Json → String → Option Json
| .obj fields, key => lookupField fields key
| _, _ => none

mutual

/-- JavaScript string coercion `String(v)` of a parsed JSON value, as applied
by `new Error(v)` to a non-string `detail` value (line 43). -/
def jsString : Json → String
| .null => "null"
| .bool true => "true"
| .bool false => "false"
| .num n => toString n
| .str s => s
| .arr xs => jsStringElems xs
| .obj _ => "[object Object]"

/-- `Array.prototype.toString` joins the coerced elements with commas, with
`null` elements rendered as the empty string. -/
def jsStringElems : List Json → String
| [] => ""
| [.null] => ""
| [j] => jsString j
| .null :: rest => "," ++ jsStringElems rest
| j :: rest => jsString j ++ "," ++ jsStringElems rest

end

/-- The main state of the controller (line 18 of the source). -/
inductive AppState : Type where
| idle : AppState
| loading : AppState
| result : AppState
| error : AppState
deriving DecidableEq

/-- The five `useState` slots of the `App` component (lines 21-25). `mob`
holds the raw parsed JSON value: the assignment at line 45 is a TypeScript
cast with no runtime validation, so the runtime slot is untyped. The `error`
slot is a string whose empty value renders as absent. -/
structure ComponentState : Type where
  prompt : String
  state : AppState
  mob : Option Json
  error : String
  downloading : Bool

/-- Initial values of the five state slots (lines 21-25). -/
def initialState : ComponentState :=
  { prompt := "", state := .idle, mob := none, error := "", downloading := false }

/-- `Response.ok` is true exactly when the status lies in 200-299. -/
def statusOk (status : Nat) : Bool := 200 ≤ status && status < 300

/-- Settling of the generation fetch (line 36). `reject msg` is a
transport-level failure: the promise rejects with an `Error` whose message is
`msg`. `resolved status body` is a response with the given status, where
`body` is the outcome of `res.json()`: `.ok j` a parsed value, `.error msg` a
`SyntaxError` (an `Error` carrying `msg`) thrown on an unparsable body. -/
inductive GenOutcome : Type where
| reject : String → GenOutcome
| resolved : Nat → Except String Json → GenOutcome

/-- JavaScript whitespace as matched by the regular expression class `\s` and
stripped by `String.prototype.trim`, restricted to the ASCII range exercised
by the program. -/
def isJsWhitespace (c : Char) : Bool :=
  c = ' ' || c = '\t' || c = '\n' || c = '\r' || c = '\x0b' || c = '\x0c'

/-- JavaScript `String.prototype.trim`: strips whitespace from both ends. -/
def jsTrim (s : String) : String :=
  ⟨((s.data.dropWhile isJsWhitespace).reverse.dropWhile isJsWhitespace).reverse⟩

/-- Synchronous prefix of `handleGenerate` (lines 27-40): the empty-trimmed
prompt guard at line 29 (the empty string is the only falsy value `trim` can
return), then `setState("loading")`, `setError("")`, `setMob(null)` before
the fetch is issued. The boolean reports whether the network request was
issued. -/
def handleGenerateStart (s : ComponentState) : ComponentState × Bool :=
  if jsTrim s.prompt = "" then (s, false)
  else ({ s with state := .loading, error := "", mob := none }, true)

/-- Template literal of line 43 when no usable `detail` is found. -/
def serverErrorMessage (status : Nat) : String := s!"Server error ({status})"

/-- Message of the `Error` thrown at line 43 for a non-ok response:
`body?.detail ?? \x7bServer error (status)\x7d`. An unparsable body was turned
into `null` by the `.catch` at line 42; `?.` and `??` both fall through to the
synthesized message on `null`/`undefined`, and any other `detail` value is
string-coerced by the `Error` constructor. -/
def notOkMessage (body : Except String Json) (status : Nat) : String :=
  match body with
  | .error _ => serverErrorMessage status
  | .ok j =>
      match jsGetField j "detail" with
      | none => serverErrorMessage status
      | some .null => serverErrorMessage status
      | some v => jsString v

/-- Continuation of `handleGenerate` after the fetch settles (lines 41-51).
Every value thrown inside the `try` is an `Error` (the explicit `throw`, a
`SyntaxError` from `res.json()`, a `TypeError` from a rejecting `fetch`), so
the `catch` at lines 48-50 always stores `err.message` and enters `error`. -/
def handleGenerateResolve (s : ComponentState) (r : GenOutcome) : ComponentState :=
  match r with
  | .reject msg => { s with error := msg, state := .error }
  | .resolved status body =>
      if statusOk status then
        match body with
        | .ok data => { s with mob := some data, state := .result }
        | .error msg => { s with error := msg, state := .error }
      else
        { s with error := notOkMessage body status, state := .error }

/-- A whole run of `handleGenerate` with no other command interleaved: the
start phase, and the resolve phase when a request was issued. -/
def generateRun (s : ComponentState) (r : GenOutcome) : ComponentState :=
  let started := handleGenerateStart s
  if started.2 then handleGenerateResolve started.1 r else started.1

/-- The prompt form carrying `onSubmit=\x7bhandleGenerate\x7d` is mounted only
while the main state is `idle` or `error` (line 97 of the source); in every
other state the form is absent from the document and a generate command cannot
be delivered at all. This is the dispatch the presentation layer actually
offers. -/
def uiGenerate (s : ComponentState) : ComponentState × Bool :=
  if s.state = .idle ∨ s.state = .error then handleGenerateStart s else (s, false)

/-- Settling of the download fetch (line 58). `reject msg` is a transport
failure of the fetch itself; `resolved status blob` a response with the given
status, `blob` being the outcome of `res.blob()` (consulted only on an ok
status): `.error msg` a rejection with an `Error` carrying `msg`. -/
inductive DlOutcome : Type where
| reject : String → DlOutcome
| resolved : Nat → Except String Unit → DlOutcome

/-- Synchronous prefix of `handleDownload` (lines 54-62): the `!mob` guard at
line 55, then `setDownloading(true)` before the fetch is issued. The boolean
reports whether the network request was issued. No other guard exists in the
handler body. -/
def handleDownloadStart (s : ComponentState) : ComponentState × Bool :=
  if s.mob.isSome then ({ s with downloading := true }, true) else (s, false)

/-- Template literal of line 63. -/
def downloadFailedMessage (status : Nat) : String := s!"Download failed ({status})"

/-- Replacement `replace(/\s+/g, "_")` on a character list: every maximal run
of whitespace becomes a single underscore. The boolean argument records
whether the previous character belonged to a whitespace run. -/
def collapseWhitespaceAux : Bool → List Char → List Char
| _, [] => []
| prev, c :: rest =>
    if isJsWhitespace c then
      if prev then collapseWhitespaceAux true rest
      else '_' :: collapseWhitespaceAux true rest
    else c :: collapseWhitespaceAux false rest

/-- Replacement `replace(/\s+/g, "_")`. -/
def collapseWhitespace (s : String) : String :=
  ⟨collapseWhitespaceAux false s.data⟩

/-- JavaScript `String.prototype.toLowerCase`, restricted to the ASCII
letters exercised by the program. -/
def jsToLowerCase (s : String) : String :=
  ⟨s.data.map Char.toLower⟩

/-- Filename derivation of line 68: lowercase the creature name, collapse
whitespace runs to single underscores, append the fixed extension. -/
def mcaddonFileName (name : String) : String :=
  collapseWhitespace (jsToLowerCase name) ++ ".mcaddon"

/-- Continuation of `handleDownload` after the fetch settles (lines 63-77).
On success the handler computes the filename from `mob.name` and triggers the
local save (returned as the second component; `none` means no save was
triggered); it never touches `error` on that path. Every failure is caught at
lines 73-74 (all thrown values are `Error`s) and stored in `error`, and the
`finally` at lines 75-77 resets `downloading` on every path. If `mob.name` is
not a string, line 68 throws a `TypeError` whose engine-specific text is
modelled by a fixed placeholder; no claim depends on that text. -/
def handleDownloadFinish (s : ComponentState) (r : DlOutcome) :
    ComponentState × Option String :=
  match r with
  | .reject msg => ({ s with error := msg, downloading := false }, none)
  | .resolved status blob =>
      if statusOk status then
        match blob with
        | .error msg => ({ s with error := msg, downloading := false }, none)
        | .ok _ =>
            match s.mob with
            | some j =>
                match jsGetField j "name" with
                | some (.str n) =>
                    ({ s with downloading := false }, some (mcaddonFileName n))
                | _ => ({ s with error := "TypeError", downloading := false }, none)
            | none => ({ s with error := "TypeError", downloading := false }, none)
      else
        ({ s with error := downloadFailedMessage status, downloading := false }, none)

/-- A whole run of `handleDownload` with no other command interleaved. The
second component is the filename of the triggered save, when one happened. -/
def downloadRun (s : ComponentState) (r : DlOutcome) : ComponentState × Option String :=
  let started := handleDownloadStart s
  if started.2 then handleDownloadFinish started.1 r else (started.1, none)

/-- The download button exists in the document only while the main state is
`result` and `mob` is present (line 124 of the source), and it is disabled
while `downloading` is true (line 176), so a click cannot be delivered
outside those conditions. This is the dispatch the presentation layer
actually offers. -/
def uiDownload (s : ComponentState) : ComponentState × Bool :=
  if s.state = .result ∧ s.mob.isSome = true ∧ s.downloading = false then
    handleDownloadStart s
  else (s, false)

/-- The `handleStartOver` command (lines 80-85): resets `prompt`, `mob`,
`error` and the main state; it does not touch `downloading`. -/
def handleStartOver (s : ComponentState) : ComponentState :=
  { s with prompt := "", mob := none, error := "", state := .idle }

/-- Loot entry shape expected by the spec (`item`, `min`, `max`). -/
structure LootItem : Type where
  item : String
  min : Int
  max : Int

/-- Creature description shape expected by the spec (the `MobData` interface
of lines 10-16, which exists only at the type level in the source). -/
structure MobData : Type where
  name : String
  health : Int
  attack_damage : Int
  abilities : List String
  loot : List LootItem

/-- Reads a JSON string. -/
def decodeString : Json → Option String
| .str s => some s
| _ => none

/-- Reads a JSON number. -/
def decodeNum : Json → Option Int
| .num n => some n
| _ => none

/-- Reads a JSON array of strings. -/
def decodeStringList : Json → Option (List String)
| .arr xs => xs.mapM decodeString
| _ => none

/-- Reads one loot entry, requiring all three fields. -/
def decodeLootItem (j : Json) : Option LootItem := do
  let item ← (jsGetField j "item").bind decodeString
  let lo ← (jsGetField j "min").bind decodeNum
  let hi ← (jsGetField j "max").bind decodeNum
  pure { item := item, min := lo, max := hi }

/-- Modelled from the spec: the strict field-for-field deserialization the
spec attributes to GenerationClient, where a missing required field
constitutes a `MalformedResponse` error and unknown extra fields are ignored.
No such validation exists in the source, which casts the parsed body at
line 45; this definition exists to compare that expectation with the code. -/
def decodeMobData (j : Json) : Option MobData := do
  let name ← (jsGetField j "name").bind decodeString
  let health ← (jsGetField j "health").bind decodeNum
  let ad ← (jsGetField j "attack_damage").bind decodeNum
  let abilities ← (jsGetField j "abilities").bind decodeStringList
  let loot ← match jsGetField j "loot" with
    | some (.arr xs) => xs.mapM decodeLootItem
    | _ => none
  pure { name := name, health := health, attack_damage := ad,
         abilities := abilities, loot := loot }

/-- Invariant of the claims: a present creature implies the `result` state. -/
def mobInv (s : ComponentState) : Prop := s.mob.isSome = true → s.state = .result

/-- A concrete creature body in the shape the generation service returns. -/
def staleMob : Json :=
  Json.obj [("name", Json.str "Fire Dragon"), ("health", Json.num 40),
    ("attack_damage", Json.num 7), ("abilities", Json.arr [Json.str "lava attack"]),
    ("loot", Json.arr [Json.obj [("item", Json.str "diamond"),
      ("min", Json.num 1), ("max", Json.num 3)]])]

/-- A state in which a creature is displayed and a previous attempt left an
error message behind. -/
def staleErrorState : ComponentState :=
  { prompt := "fire dragon", state := .result, mob := some staleMob,
    error := "previous failure", downloading := false }

/-- The state during an in-flight generation request. -/
def loadingState : ComponentState :=
  { prompt := "fire dragon", state := .loading, mob := none, error := "",
    downloading := false }

/-- A failing body matching the spec's example. -/
def detailBody : Json := Json.obj [("detail", Json.str "bad prompt")]

/-- A creature named as in the spec's first filename example, displayed. -/
def fileNameState : ComponentState :=
  { prompt := "fire dragon boss", state := .result,
    mob := some (Json.obj [("name", Json.str "Fire Dragon Boss")]),
    error := "", downloading := true }

/-- Frame facts of the resolve phase of a download: it never changes the main
state, the creature or the prompt, whatever the outcome. -/
theorem handleDownloadFinish_frame (s : ComponentState) (r : DlOutcome) :
    (handleDownloadFinish s r).1.state = s.state ∧
    (handleDownloadFinish s r).1.mob = s.mob ∧
    (handleDownloadFinish s r).1.prompt = s.prompt := by
  rcases r with msg | ⟨status, blob⟩
  · exact ⟨rfl, rfl, rfl⟩
  · by_cases h : statusOk status = true
    · rcases blob with m | u
      · simp [handleDownloadFinish, h]
      · rcases hm : s.mob with _ | j
        · simp [handleDownloadFinish, h, hm]
        · rcases hg : jsGetField j "name" with _ | v
          · simp [handleDownloadFinish, h, hm, hg]
          · rcases v <;> simp [handleDownloadFinish, h, hm, hg]
    · simp [handleDownloadFinish, h]

/-- Frame facts of a whole download run: the main state, the creature and the
prompt are untouched on every path. -/
theorem downloadRun_frame (s : ComponentState) (r : DlOutcome) :
    (downloadRun s r).1.state = s.state ∧
    (downloadRun s r).1.mob = s.mob ∧
    (downloadRun s r).1.prompt = s.prompt := by
  unfold downloadRun handleDownloadStart
  by_cases h : s.mob.isSome = true
  · have hf := handleDownloadFinish_frame { s with downloading := true } r
    simpa [h] using hf
  · simp [h]

/-- C1: the code has no stale-response token: a generation response that
resolves after a `startOver` issued in between is applied anyway, moving the
post-reset state (`idle`, creature absent, error absent) to `result` with the
stale creature installed. This evaluates the code on that interleaving. -/
theorem staleGenerateResponseOverwritesReset :
    (handleGenerateStart { initialState with prompt := "fire dragon boss" }).2 = true ∧
    handleStartOver (handleGenerateStart { initialState with prompt := "fire dragon boss" }).1 =
      initialState ∧
    handleGenerateResolve
        (handleStartOver (handleGenerateStart { initialState with prompt := "fire dragon boss" }).1)
        (.resolved 200 (.ok staleMob)) =
      { initialState with mob := some staleMob, state := .result } :=
  ⟨rfl, rfl, rfl⟩

/-- C2 counterexample: a download call that passes its guard issues the
network call while the error slot still holds the previous message — the
handler never clears `error` before the fetch. -/
theorem downloadStartKeepsStaleError :
    (handleDownloadStart staleErrorState).2 = true ∧
    (handleDownloadStart staleErrorState).1.error = "previous failure" ∧
    (handleDownloadStart staleErrorState).1.error ≠ "" := by
  refine ⟨rfl, rfl, ?_⟩
  decide

/-- C2 amended: a generate call that passes its guard clears `error` to
absent before its fetch is issued; a download call that passes its guard
leaves `error` unchanged when its fetch is issued. -/
theorem errorClearingAtRequestStart (s : ComponentState) :
    ((handleGenerateStart s).2 = true → (handleGenerateStart s).1.error = "") ∧
    ((handleDownloadStart s).2 = true → (handleDownloadStart s).1.error = s.error) := by
  constructor
  · intro h
    unfold handleGenerateStart at *
    by_cases hp : jsTrim s.prompt = "" <;> simp [hp] at *
  · intro h
    unfold handleDownloadStart at *
    by_cases hm : s.mob.isSome = true <;> simp [hm] at *

/-- Witness: the amended C2 applied to a fresh generate and a download from a
state carrying a stale error. -/
theorem errorClearingAtRequestStart_witness :
    (handleGenerateStart { initialState with prompt := "fire dragon" }).1.error = "" ∧
    (handleDownloadStart staleErrorState).1.error = staleErrorState.error :=
  ⟨(errorClearingAtRequestStart { initialState with prompt := "fire dragon" }).1 rfl,
   (errorClearingAtRequestStart staleErrorState).2 rfl⟩

/-- C3: while the main state is `loading` the prompt form is not mounted
(line 97), so a generate invocation cannot be delivered: the whole state —
`AppState`, creature, prompt and error — is unchanged and no network request
is issued. -/
theorem generateRejectedWhileLoading (s : ComponentState) (h : s.state = .loading) :
    uiGenerate s = (s, false) := by
  simp [uiGenerate, h]

/-- Witness: C3 at the in-flight state. -/
theorem generateRejectedWhileLoading_witness :
    uiGenerate loadingState = (loadingState, false) :=
  generateRejectedWhileLoading loadingState rfl

/-- C4 counterexample: a success response whose parsed body is the empty
object — every required CreatureDescription field missing — is stored as the
creature and the run ends in `result`, not in a `MalformedResponse` error. -/
theorem missingFieldsReachResult :
    decodeMobData (Json.obj []) = none ∧
    generateRun { initialState with prompt := "dragon" }
        (.resolved 200 (.ok (Json.obj []))) =
      { initialState with
          prompt := "dragon", state := .result, mob := some (Json.obj []) } ∧
    (generateRun { initialState with prompt := "dragon" }
        (.resolved 200 (.ok (Json.obj [])))).state ≠ .error := by
  refine ⟨rfl, rfl, ?_⟩
  decide

/-- C4 amended: a generate response with a success status is accepted without
any field validation — whatever JSON value the body parsed to becomes the
creature and the state becomes `result`; only an unparsable body is an error
(with the parse failure as the message). -/
theorem okResponseAcceptedWithoutValidation (s : ComponentState) (status : Nat)
    (hok : statusOk status = true) :
    (∀ j, handleGenerateResolve s (.resolved status (.ok j)) =
      { s with mob := some j, state := .result }) ∧
    (∀ msg, handleGenerateResolve s (.resolved status (.error msg)) =
      { s with error := msg, state := .error }) := by
  constructor <;> intro x <;> simp [handleGenerateResolve, hok]

/-- Witness: the amended C4 at status 200 with the empty-object body. -/
theorem okResponseAcceptedWithoutValidation_witness :
    handleGenerateResolve initialState (.resolved 200 (.ok (Json.obj []))) =
      { initialState with mob := some (Json.obj []), state := .result } :=
  (okResponseAcceptedWithoutValidation initialState 200 rfl).1 (Json.obj [])

/-- C5: a download invocation with the creature absent, or a download already
in flight, or the main state not `result`, cannot go through — the button is
unmounted outside `result`-with-creature (line 124) and disabled while
downloading (line 176), and the handler itself rejects an absent creature
(line 55): the state is unchanged and no network call is issued. -/
theorem downloadGuardRejects (s : ComponentState)
    (h : s.mob = none ∨ s.downloading = true ∨ s.state ≠ .result) :
    uiDownload s = (s, false) := by
  have hng : ¬(s.state = .result ∧ s.mob.isSome = true ∧ s.downloading = false) := by
    rcases h with h | h | h <;> simp [h]
  simp [uiDownload, hng]

/-- Witness: C5 at the initial state, whose creature slot is empty. -/
theorem downloadGuardRejects_witness :
    uiDownload initialState = (initialState, false) :=
  downloadGuardRejects initialState (Or.inl rfl)

/-- C6: a non-success generation response always ends in the `error` state;
when the body parsed and carries a string `detail` the error message is
exactly that string, and when the body is unparsable (or absent, which also
makes `res.json()` throw) or has no `detail` field the message is the
synthesized one carrying the numeric status code. -/
theorem nonSuccessResponseErrorReporting (s : ComponentState) (status : Nat)
    (body : Except String Json) (hbad : statusOk status = false) :
    (handleGenerateResolve s (.resolved status body)).state = .error ∧
    (∀ j d, body = .ok j → jsGetField j "detail" = some (Json.str d) →
      (handleGenerateResolve s (.resolved status body)).error = d) ∧
    (∀ msg, body = .error msg →
      (handleGenerateResolve s (.resolved status body)).error = serverErrorMessage status) ∧
    (∀ j, body = .ok j → jsGetField j "detail" = none →
      (handleGenerateResolve s (.resolved status body)).error = serverErrorMessage status) := by
  refine ⟨?_, ?_, ?_, ?_⟩
  · rcases body with msg | j <;> simp [handleGenerateResolve, hbad]
  · rintro j d rfl hd
    simp [handleGenerateResolve, hbad, notOkMessage, hd, jsString]
  · rintro msg rfl
    simp [handleGenerateResolve, hbad, notOkMessage]
  · rintro j rfl hd
    simp [handleGenerateResolve, hbad, notOkMessage, hd]

/-- Witness: C6 on the spec's example — status 500 with detail "bad prompt". -/
theorem nonSuccessResponseErrorReporting_witness :
    (handleGenerateResolve initialState (.resolved 500 (.ok detailBody))).state = .error ∧
    (handleGenerateResolve initialState (.resolved 500 (.ok detailBody))).error = "bad prompt" :=
  ⟨(nonSuccessResponseErrorReporting initialState 500 (.ok detailBody) rfl).1,
   (nonSuccessResponseErrorReporting initialState 500 (.ok detailBody) rfl).2.1
     detailBody "bad prompt" rfl rfl⟩

/-- C7: the filename handed to the save trigger is the pure function of the
creature name that lowercases it, collapses every whitespace run to one
underscore and appends the fixed extension; every successful download of the
same creature yields this same name, and the two example names evaluate as
the spec states. -/
theorem fileNameDerivation (s : ComponentState) (j : Json) (n : String)
    (hm : s.mob = some j) (hn : jsGetField j "name" = some (Json.str n)) :
    (∀ status, statusOk status = true →
      (handleDownloadFinish s (.resolved status (.ok ()))).2 = some (mcaddonFileName n)) ∧
    mcaddonFileName "Fire Dragon Boss" = "fire_dragon_boss.mcaddon" ∧
    mcaddonFileName "A   B" = "a_b.mcaddon" := by
  refine ⟨?_, by decide, by decide⟩
  intro status hok
  simp [handleDownloadFinish, hok, hm, hn]

/-- Witness: C7 on the displayed "Fire Dragon Boss" creature. -/
theorem fileNameDerivation_witness :
    (handleDownloadFinish fileNameState (.resolved 200 (.ok ()))).2 =
      some "fire_dragon_boss.mcaddon" := by
  have h := (fileNameDerivation fileNameState
    (Json.obj [("name", Json.str "Fire Dragon Boss")]) "Fire Dragon Boss" rfl rfl).1 200 rfl
  rw [h]
  decide

/-- C8: a generate call with an empty trimmed prompt returns before touching
anything: the entire state — in particular `AppState` and `error` — is
unchanged and no network request is issued. -/
theorem emptyPromptGenerateNoOp (s : ComponentState) (h : jsTrim s.prompt = "") :
    handleGenerateStart s = (s, false) := by
  simp [handleGenerateStart, h]

/-- Witness: C8 on a prompt of blanks. -/
theorem emptyPromptGenerateNoOp_witness :
    handleGenerateStart { initialState with prompt := "   " } =
      ({ initialState with prompt := "   " }, false) :=
  emptyPromptGenerateNoOp { initialState with prompt := "   " } (by decide)

/-- C9: the invariant that a present creature implies the `result` state is
preserved by every complete run of each command: generate clears the creature
before entering `loading` and re-installs one only together with `result`,
download never touches the creature or the main state, and `startOver` clears
the creature while entering `idle`. -/
theorem mobPresenceInvariant (s : ComponentState) (h : mobInv s) :
    (∀ r, mobInv (generateRun s r)) ∧
    (∀ r, mobInv (downloadRun s r).1) ∧
    mobInv (handleStartOver s) := by
  refine ⟨?_, ?_, ?_⟩
  · intro r
    unfold generateRun handleGenerateStart
    by_cases hp : jsTrim s.prompt = ""
    · simpa [hp] using h
    · simp only [hp, if_false]
      rcases r with msg | ⟨status, body⟩
      · intro hsome
        simp [handleGenerateResolve] at hsome
      · by_cases hok : statusOk status = true
        · rcases body with msg | j
          · intro hsome
            simp [handleGenerateResolve, hok] at hsome
          · intro _
            simp [handleGenerateResolve, hok]
        · intro hsome
          simp [handleGenerateResolve, hok] at hsome
  · intro r hsome
    rw [(downloadRun_frame s r).2.1] at hsome
    rw [(downloadRun_frame s r).1]
    exact h hsome
  · intro hsome
    simp [handleStartOver] at hsome

/-- Witness: C9 applied to a state displaying a creature, for one outcome of
each command. -/
theorem mobPresenceInvariant_witness :
    mobInv (generateRun staleErrorState (.reject "network down")) ∧
    mobInv (downloadRun staleErrorState (.reject "network down")).1 ∧
    mobInv (handleStartOver staleErrorState) :=
  ⟨(mobPresenceInvariant staleErrorState (fun _ => rfl)).1 (.reject "network down"),
   (mobPresenceInvariant staleErrorState (fun _ => rfl)).2.1 (.reject "network down"),
   (mobPresenceInvariant staleErrorState (fun _ => rfl)).2.2⟩

/-- C10: a failed download — the fetch rejects, the status is non-success, or
the payload read fails — changes exactly `error` (to the failure message) and
`downloading` (back to `false`, on the cleanup path): the main state stays
`result` and the creature and prompt are untouched. -/
theorem downloadFailureAtomic (s : ComponentState) (hres : s.state = .result)
    (hm : s.mob.isSome = true) :
    (∀ msg, (downloadRun s (.reject msg)).1 =
      { s with error := msg, downloading := false }) ∧
    (∀ status blob, statusOk status = false →
      (downloadRun s (.resolved status blob)).1 =
        { s with error := downloadFailedMessage status, downloading := false }) ∧
    (∀ status msg, statusOk status = true →
      (downloadRun s (.resolved status (.error msg))).1 =
        { s with error := msg, downloading := false }) ∧
    (∀ r, (downloadRun s r).1.state = .result) := by
  refine ⟨?_, ?_, ?_, ?_⟩
  · intro msg
    simp [downloadRun, handleDownloadStart, handleDownloadFinish, hm]
  · intro status blob hbad
    simp [downloadRun, handleDownloadStart, handleDownloadFinish, hm, hbad]
  · intro status msg hok
    simp [downloadRun, handleDownloadStart, handleDownloadFinish, hm, hok]
  · intro r
    rw [(downloadRun_frame s r).1, hres]

/-- Witness: C10 on a failing status 500 from the displayed-creature state. -/
theorem downloadFailureAtomic_witness :
    (downloadRun staleErrorState (.resolved 500 (.ok ()))).1 =
      { staleErrorState with error := downloadFailedMessage 500, downloading := false } :=
  (downloadFailureAtomic staleErrorState rfl rfl).2.1 500 (.ok ()) rfl

end MobApp
